import Mathlib

/-!
Shallow embedding of the `therapy-api` Supabase edge function
(`supabase/functions/therapy-api/index.ts`).

The handler is a straight-line sequence of calls to a hosted database and a
hosted chat-completion API.  Each external call is modelled by an oracle field
giving that call's outcome; the handler itself is embedded as a pure function
from the request, the authenticated user id and the oracle to the list of
issued external operations (the event trace) and the HTTP response.

JavaScript truthiness on optional strings (`title || 'New Therapy Session'`,
`!message`, `!supabaseUrl`) is modelled by `truthy` / `jsOrStr`: `null`
(`Option.none`) and the empty string are falsy, every other string truthy.
-/

namespace TherapyApi

/-- JS truthiness of a nullable string: `null` and `""` are falsy. -/
def truthy (v : Option String) : Bool :=
  match v with
  | none => false
  | some s => !s.isEmpty

/-- JS `v || d` on a nullable string `v` and default string `d`. -/
def jsOrStr (v : Option String) (d : String) : String :=
  match v with
  | none => d
  | some s => if s.isEmpty then d else s

/-- A row of the `chat_sessions` table. -/
structure Session where
  id : String
  user_id : String
  title : String
  current_mode : String
  message_count : Nat
  created_at : String
  deriving Repr, DecidableEq

/-- The payload of the `chat_sessions` insert in `handleCreateSession`
(`id` and `created_at` are database-generated and absent from the payload). -/
structure SessionInsert where
  user_id : String
  title : String
  current_mode : String
  message_count : Nat
  deriving Repr, DecidableEq

/-- The payload of a `chat_messages` insert in `handleSendMessage`. -/
structure MessageInsert where
  session_id : String
  user_id : String
  content : String
  role : String
  mode : String
  deriving Repr, DecidableEq

/-- A `{role, content}` chat message, as sent to the chat-completion API and as
returned by the history fetch. -/
structure ChatMsg where
  role : String
  content : String
  deriving Repr, DecidableEq

/-- A row returned by `handleGetMessages`' messages query
(`select('id, role, content, mode, created_at')`). -/
structure MessageRow where
  id : String
  role : String
  content : String
  mode : String
  created_at : String
  deriving Repr, DecidableEq

/-- A row returned by `handleGetSessions`' query
(`select('id, title, current_mode, message_count, created_at')`). -/
structure SessionListRow where
  id : String
  title : String
  current_mode : String
  message_count : Nat
  created_at : String
  deriving Repr, DecidableEq

/-- One external operation issued by a handler: a read or write against the
hosted database, or the outbound chat-completion HTTP call. -/
inductive Event where
  /-- the daily rate-limit count query over `chat_messages` -/
  | readDailyCount (userId : String)
  /-- the `chat_sessions` ownership lookup filtered on session id and user id -/
  | readSessionRow (sessionId : String) (userId : String)
  /-- the recent-history fetch over `chat_messages` (limit 10) -/
  | readHistory (sessionId : String) (userId : String)
  /-- `handleGetMessages`' full message listing over `chat_messages` -/
  | readMessages (sessionId : String) (userId : String)
  /-- `handleGetSessions`' listing over `chat_sessions` -/
  | readSessions (userId : String)
  /-- `handleGetUserStats`' count query over `chat_sessions` -/
  | readSessionCount (userId : String)
  /-- the outbound HTTP call to the chat-completion API -/
  | llmCall (messages : List ChatMsg)
  /-- an insert into `chat_messages` -/
  | insertMessage (row : MessageInsert)
  /-- the insert into `chat_sessions` in `handleCreateSession` -/
  | insertSession (row : SessionInsert)
  /-- the `chat_sessions` update setting `message_count` (and nothing else) -/
  | updateSessionCount (sessionId : String) (userId : String) (newCount : Nat)
  deriving Repr, DecidableEq

/-- Whether the event is a database write. -/
def Event.isWrite : Event → Bool
  | .insertMessage _ => true
  | .insertSession _ => true
  | .updateSessionCount _ _ _ => true
  | _ => false

/-- Whether the event is an operation (read or write) against `chat_messages`. -/
def Event.touchesMessagesTable : Event → Bool
  | .readDailyCount _ => true
  | .readHistory _ _ => true
  | .readMessages _ _ => true
  | .insertMessage _ => true
  | _ => false

/-- Whether the event is a write into `chat_messages`. -/
def Event.writesMessagesTable : Event → Bool
  | .insertMessage _ => true
  | _ => false

/-- An HTTP response body, one constructor per `JSON.stringify` shape in the
source. -/
inductive RespBody where
  /-- the plain `'ok'` body of the CORS preflight response -/
  | textBody (s : String)
  /-- `{ error }` or `{ error, details }` -/
  | errorBody (error : String) (details : Option String)
  /-- the `{ error, details: {…} }` body for missing environment variables -/
  | envErrorBody (hasSupabaseUrl hasServiceKey hasOpenaiKey : Bool)
  /-- `{ error, remainingMessages }` for the daily limit -/
  | limitBody (error : String) (remainingMessages : Nat)
  /-- the success body of `handleSendMessage` -/
  | replyBody (reply : String) (mode : String) (sessionId : String)
      (remainingMessages : Int)
  /-- `{ session }` from `handleCreateSession` -/
  | sessionBody (session : Session)
  /-- `{ sessions }` from `handleGetSessions` -/
  | sessionsBody (sessions : List SessionListRow)
  /-- `{ messages }` from `handleGetMessages` -/
  | messagesBody (messages : List MessageRow)
  /-- the body of `handleGetUserStats` -/
  | statsBody (messagesUsedToday : Nat) (remainingMessages : Int)
      (totalSessions : Nat) (isPremium : Bool)
  deriving Repr, DecidableEq

/-- An HTTP response: status (200 when the source omits it) and JSON body. -/
structure HttpResponse where
  status : Nat
  body : RespBody
  deriving Repr, DecidableEq

/-- The four preset prompts of `getSystemPrompt`. -/
def reflectPrompt : String :=
  "You are Echo, a warm and intuitive therapy companion in Reflect Mode. Your purpose is to help users process thoughts and emotions through gentle, non-judgmental exploration. Use reflection, metaphor, and somatic awareness. Never diagnose. Guide only by open-ended questions. Keep responses under 300 words and always be empathetic and supportive."

def recoverPrompt : String :=
  "You are Echo in Recover Mode, a trauma-informed healing companion. Prioritize emotional safety, validation, grounding, and resilience. Let the user lead the pace. Don\x27t ask for graphic trauma details. Always empower. Focus on healing, safety, and gentle progress. Keep responses under 300 words and be extra gentle and validating."

def rebuildPrompt : String :=
  "You are Echo in Rebuild Mode. Help the user reconstruct identity, relationships, and values after challenge. Focus on patterns, boundaries, and self-awareness. Be empowering, constructive, and values-focused. Help them build healthy foundations and structures in their life. Keep responses under 300 words and be encouraging about their rebuilding journey."

def evolvePrompt : String :=
  "You are Echo in Evolve Mode. Inspire future growth, vision, and transformation. Help users challenge limiting beliefs and envision bold change. Be visionary, energizing, and grounded in possibility. Focus on potential, goals, and forward momentum. Keep responses under 300 words and be motivational while remaining realistic."

/-- A JavaScript value that the property lookup `prompts[mode]` can resolve
to: one of the object literal's own string properties, a member inherited
from `Object.prototype` (a function, or the object produced by the
`__proto__` accessor), or `undefined` when the property exists nowhere on
the prototype chain. -/
inductive JsPropValue where
  | str (s : String)
  | protoMember (name : String)
  | jsUndefined
  deriving Repr, DecidableEq

/-- JS truthiness of such a value: `undefined` is falsy, a string is truthy
when nonempty, and an inherited function or object is always truthy. -/
def JsPropValue.isTruthy : JsPropValue → Bool
  | .str s => !s.isEmpty
  | .protoMember _ => true
  | .jsUndefined => false

/-- The property names an object literal inherits from `Object.prototype` in
the V8 runtime the edge function runs on: the standard member functions, the
`__proto__` accessor, and the Annex B getter/setter functions. -/
def objectPrototypeKeys : List String :=
  ["constructor", "hasOwnProperty", "isPrototypeOf", "propertyIsEnumerable",
   "toLocaleString", "toString", "valueOf", "__proto__", "__defineGetter__",
   "__defineSetter__", "__lookupGetter__", "__lookupSetter__"]

/-- `prompts[mode]`: JS property lookup on the `prompts` object literal — the
four own keys first, then the inherited `Object.prototype` members, else
`undefined`. -/
def promptsLookup (mode : String) : JsPropValue :=
  if mode = "reflect" then .str reflectPrompt
  else if mode = "recover" then .str recoverPrompt
  else if mode = "rebuild" then .str rebuildPrompt
  else if mode = "evolve" then .str evolvePrompt
  else if mode ∈ objectPrototypeKeys then .protoMember mode
  else .jsUndefined

/-- `getSystemPrompt` under full JS semantics:
`return prompts[mode] || prompts.evolve`.  For a mode naming an inherited
`Object.prototype` member the inherited value is truthy and short-circuits
the `||`, so the evolve prompt is not used there (despite the function's
declared `: string` return type). -/
def getSystemPromptJs (mode : String) : JsPropValue :=
  if (promptsLookup mode).isTruthy then promptsLookup mode
  else .str evolvePrompt

/-- The string restriction of `getSystemPromptJs`, used by the
`handleSendMessage` embedding below: it agrees with the JS lookup
(`getSystemPromptJs mode = .str (getSystemPrompt mode)`) for every mode that
is not an inherited `Object.prototype` member name — the only modes for which
the source's lookup produces a string at all. -/
def getSystemPrompt (mode : String) : String :=
  if mode = "reflect" then reflectPrompt
  else if mode = "recover" then recoverPrompt
  else if mode = "rebuild" then rebuildPrompt
  else if mode = "evolve" then evolvePrompt
  else evolvePrompt

/-- The parsed JSON body of a `sendMessage` request. -/
structure SendBody where
  message : Option String
  sessionId : Option String
  mode : Option String
  deriving Repr, DecidableEq

/-- A failed (non-`ok`) chat-completion HTTP response: its status code and the
body text read by `openAIResponse.text()`. -/
structure LlmFailure where
  status : Nat
  text : String
  deriving Repr, DecidableEq

/-- Outcomes of the external calls `handleSendMessage` can issue, in source
order.  An `Except.error m` / `Option.some m` outcome is the supabase client
reporting an error whose `.message` is `m`; the chat-completion outcome is
either an HTTP failure or a response whose extracted
`choices[0]?.message?.content` may be absent. -/
structure SendOracle where
  countRes : Except String Nat
  sessionRes : Except String Session
  historyRes : Except String (List ChatMsg)
  llmRes : Except LlmFailure (Option String)
  userInsertRes : Option String
  aiInsertRes : Option String
  updateRes : Option String
  deriving Repr

/-- The guard `messageCount && messageCount >= 50` of the daily-limit check:
`messageCount` is `null` (falsy) when the count query failed, and `0` is also
falsy. -/
def dailyLimitHit (messageCount : Option Nat) : Bool :=
  match messageCount with
  | some c => (c != 0) && (decide (50 ≤ c))
  | none => false

/-- `handleSendMessage`, embedded from the source: method check, required-field
check, daily-limit count query (its error only logged), daily-limit guard,
session-ownership lookup, history fetch (its error only logged), the
chat-completion call, the two `chat_messages` inserts, and the
`chat_sessions` update (its error only logged).  The system prompt is
modelled by the string restriction `getSystemPrompt` of the JS lookup
`getSystemPromptJs`, exact for every mode that is not an `Object.prototype`
member name. -/
def handleSendMessage (method : String) (body : SendBody) (userId : String)
    (o : SendOracle) : List Event × HttpResponse :=
  if method ≠ "POST" then
    ([], ⟨405, .errorBody "Method not allowed" none⟩)
  else if !truthy body.message || !truthy body.sessionId then
    ([], ⟨400, .errorBody "Message and sessionId are required" none⟩)
  else
    let message := body.message.getD ""
    let sessionId := body.sessionId.getD ""
    let ev₁ := Event.readDailyCount userId
    let messageCount : Option Nat := o.countRes.toOption
    if dailyLimitHit messageCount then
      ([ev₁], ⟨429,
        .limitBody "You\x27ve reached the daily message limit for free users." 0⟩)
    else
      let ev₂ := Event.readSessionRow sessionId userId
      match o.sessionRes with
      | .error m => ([ev₁, ev₂], ⟨404, .errorBody "Session not found" (some m)⟩)
      | .ok session =>
        let ev₃ := Event.readHistory sessionId userId
        let recentMessages := match o.historyRes with
          | .ok l => l
          | .error _ => []
        let conversationHistory := recentMessages.reverse
        let systemPrompt := getSystemPrompt (jsOrStr body.mode "evolve")
        let openAIMessages :=
          ChatMsg.mk "system" systemPrompt ::
            (conversationHistory ++ [ChatMsg.mk "user" message])
        let ev₄ := Event.llmCall openAIMessages
        match o.llmRes with
        | .error f =>
          ([ev₁, ev₂, ev₃, ev₄], ⟨500,
            .errorBody "AI service temporarily unavailable"
              (some ("OpenAI API returned " ++ toString f.status ++ ": " ++ f.text))⟩)
        | .ok none =>
          ([ev₁, ev₂, ev₃, ev₄], ⟨500,
            .errorBody "Invalid AI response received"
              (some "AI did not provide a response")⟩)
        | .ok (some aiReply) =>
          let userRow : MessageInsert :=
            ⟨sessionId, userId, message, "user", jsOrStr body.mode "evolve"⟩
          let ev₅ := Event.insertMessage userRow
          match o.userInsertRes with
          | some m =>
            ([ev₁, ev₂, ev₃, ev₄, ev₅], ⟨500,
              .errorBody "Failed to save user message" (some m)⟩)
          | none =>
            let aiRow : MessageInsert :=
              ⟨sessionId, userId, aiReply, "assistant", jsOrStr body.mode "evolve"⟩
            let ev₆ := Event.insertMessage aiRow
            match o.aiInsertRes with
            | some m =>
              ([ev₁, ev₂, ev₃, ev₄, ev₅, ev₆], ⟨500,
                .errorBody "Failed to save AI response" (some m)⟩)
            | none =>
              let ev₇ := Event.updateSessionCount sessionId userId
                (session.message_count + 1)
              ([ev₁, ev₂, ev₃, ev₄, ev₅, ev₆, ev₇], ⟨200,
                .replyBody aiReply (jsOrStr body.mode "evolve") sessionId
                  (max 0 (50 - ((Int.ofNat (messageCount.getD 0)) + 1)))⟩)

/-- The parsed JSON body of a `createSession` request. -/
structure CreateBody where
  title : Option String
  mode : Option String
  deriving Repr, DecidableEq

/-- `handleCreateSession`: method check, then one insert into `chat_sessions`
with `user_id` the authenticated user, defaulted title and mode, and
`message_count: 0`; `201 { session }` on success, 500 on insert error. -/
def handleCreateSession (method : String) (body : CreateBody) (userId : String)
    (insertRes : Except String Session) : List Event × HttpResponse :=
  if method ≠ "POST" then
    ([], ⟨405, .errorBody "Method not allowed" none⟩)
  else
    let sessionData : SessionInsert :=
      ⟨userId, jsOrStr body.title "New Therapy Session",
        jsOrStr body.mode "evolve", 0⟩
    let ev := Event.insertSession sessionData
    match insertRes with
    | .error m =>
      ([ev], ⟨500, .errorBody "Failed to create session" (some m)⟩)
    | .ok session => ([ev], ⟨201, .sessionBody session⟩)

/-- `handleGetSessions`: one listing query over `chat_sessions`; the source's
`sessions || []` turns a null result into the empty list. -/
def handleGetSessions (userId : String)
    (res : Except String (Option (List SessionListRow))) :
    List Event × HttpResponse :=
  let ev := Event.readSessions userId
  match res with
  | .error m =>
    ([ev], ⟨500, .errorBody "Failed to fetch sessions" (some m)⟩)
  | .ok sessions => ([ev], ⟨200, .sessionsBody (sessions.getD [])⟩)

/-- `handleGetMessages`: required `sessionId` query parameter, the same
equality-filtered `chat_sessions` ownership lookup as `handleSendMessage`
(404 on failure), then the message listing over `chat_messages`. -/
def handleGetMessages (sessionIdParam : Option String) (userId : String)
    (sessionRes : Except String Unit)
    (messagesRes : Except String (Option (List MessageRow))) :
    List Event × HttpResponse :=
  if !truthy sessionIdParam then
    ([], ⟨400, .errorBody "Session ID is required" none⟩)
  else
    let sessionId := sessionIdParam.getD ""
    let ev₁ := Event.readSessionRow sessionId userId
    match sessionRes with
    | .error _ => ([ev₁], ⟨404, .errorBody "Session not found" none⟩)
    | .ok _ =>
      let ev₂ := Event.readMessages sessionId userId
      match messagesRes with
      | .error m =>
        ([ev₁, ev₂], ⟨500, .errorBody "Failed to fetch messages" (some m)⟩)
      | .ok messages => ([ev₁, ev₂], ⟨200, .messagesBody (messages.getD [])⟩)

/-- `handleGetUserStats`: the daily count query and the session count query
(errors are not even destructured); always a 200 stats body. -/
def handleGetUserStats (userId : String) (messageCount : Option Nat)
    (sessionCount : Option Nat) : List Event × HttpResponse :=
  ([Event.readDailyCount userId, Event.readSessionCount userId],
    ⟨200, .statsBody (messageCount.getD 0)
      (max 0 (50 - Int.ofNat (messageCount.getD 0)))
      (sessionCount.getD 0) false⟩)

/-- Which action handler a `serve` invocation dispatched to. -/
inductive HandlerTag where
  | createSession
  | sendMessage
  | getSessions
  | getMessages
  | getUserStats
  deriving Repr, DecidableEq

/-- The `action` query-parameter value that dispatches to a handler. -/
def HandlerTag.action : HandlerTag → String
  | .createSession => "createSession"
  | .sendMessage => "sendMessage"
  | .getSessions => "getSessions"
  | .getMessages => "getMessages"
  | .getUserStats => "getUserStats"

/-- The three environment variables read at the top of `serve`; JS truthiness
applies (`!supabaseUrl` is also true for an empty string). -/
structure EnvVars where
  supabaseUrl : Option String
  supabaseServiceKey : Option String
  openaiApiKey : Option String
  deriving Repr, DecidableEq

/-- The request data `serve` and its handlers consume. -/
structure ServeRequest where
  method : String
  authHeader : Option String
  action : Option String
  sessionIdParam : Option String
  sendBody : SendBody
  createBody : CreateBody
  deriving Repr

/-- Outcomes of all external calls a `serve` invocation may issue.  `authRes`
models `supabase.auth.getUser`: `.error m` is `authError || !user` with
`authError?.message = m`. -/
structure ServeOracle where
  authRes : Except (Option String) String
  sendOracle : SendOracle
  createRes : Except String Session
  sessionsRes : Except String (Option (List SessionListRow))
  getMsgSessionRes : Except String Unit
  getMsgMessagesRes : Except String (Option (List MessageRow))
  statsMessageCount : Option Nat
  statsSessionCount : Option Nat

/-- The `serve` entry point: CORS preflight, environment check, bearer-token
authentication, then the five-way dispatch on the `action` query parameter.
The first component records which handler (if any) ran. -/
def serve (env : EnvVars) (req : ServeRequest) (o : ServeOracle) :
    Option HandlerTag × List Event × HttpResponse :=
  if req.method = "OPTIONS" then
    (none, [], ⟨200, .textBody "ok"⟩)
  else if !truthy env.supabaseUrl || !truthy env.supabaseServiceKey
      || !truthy env.openaiApiKey then
    (none, [], ⟨500, .envErrorBody (truthy env.supabaseUrl)
      (truthy env.supabaseServiceKey) (truthy env.openaiApiKey)⟩)
  else
    match req.authHeader with
    | none =>
      (none, [], ⟨401, .errorBody "Missing authorization header" none⟩)
    | some _ =>
      match o.authRes with
      | .error m =>
        (none, [], ⟨401, .errorBody "Invalid authentication" m⟩)
      | .ok userId =>
        match req.action with
        | some "createSession" =>
          let r := handleCreateSession req.method req.createBody userId o.createRes
          (some .createSession, r.1, r.2)
        | some "sendMessage" =>
          let r := handleSendMessage req.method req.sendBody userId o.sendOracle
          (some .sendMessage, r.1, r.2)
        | some "getSessions" =>
          let r := handleGetSessions userId o.sessionsRes
          (some .getSessions, r.1, r.2)
        | some "getMessages" =>
          let r := handleGetMessages req.sessionIdParam userId
            o.getMsgSessionRes o.getMsgMessagesRes
          (some .getMessages, r.1, r.2)
        | some "getUserStats" =>
          let r := handleGetUserStats userId o.statsMessageCount o.statsSessionCount
          (some .getUserStats, r.1, r.2)
        | _ =>
          (none, [], ⟨400, .errorBody "Invalid action" none⟩)

/-- `m` occurs (as a substring) in the error `details` of the response body:
the shape in which every surfaced downstream error message is reported. -/
def RespBody.surfacesDetail : RespBody → String → Prop
  | .errorBody _ (some d), m => m.data <:+: d.data
  | _, _ => False

/-- The conversation history `handleSendMessage` builds from the history
fetch's outcome: the fetched rows (empty on error) in reversed order. -/
def historyOf (historyRes : Except String (List ChatMsg)) : List ChatMsg :=
  (match historyRes with
    | .ok l => l
    | .error _ => []).reverse

/-- The exact message list sent to the chat-completion API. -/
def openAIMessagesOf (body : SendBody) (historyRes : Except String (List ChatMsg)) :
    List ChatMsg :=
  ChatMsg.mk "system" (getSystemPrompt (jsOrStr body.mode "evolve")) ::
    (historyOf historyRes ++ [ChatMsg.mk "user" (body.message.getD "")])

/-- A successful (status 200) `handleSendMessage` run pins down every branch:
the method was POST, both required fields were truthy, the daily limit was not
hit, the session lookup, the chat-completion call and both inserts succeeded,
and the run is exactly the seven-event trace with the success body. -/
theorem sendMessage_success_shape (method : String) (body : SendBody)
    (userId : String) (o : SendOracle)
    (h : (handleSendMessage method body userId o).2.status = 200) :
    method = "POST" ∧ truthy body.message = true ∧ truthy body.sessionId = true ∧
    dailyLimitHit o.countRes.toOption = false ∧
    ∃ session aiReply,
      o.sessionRes = .ok session ∧ o.llmRes = .ok (some aiReply) ∧
      o.userInsertRes = none ∧ o.aiInsertRes = none ∧
      handleSendMessage method body userId o =
        ([Event.readDailyCount userId,
          Event.readSessionRow (body.sessionId.getD "") userId,
          Event.readHistory (body.sessionId.getD "") userId,
          Event.llmCall (openAIMessagesOf body o.historyRes),
          Event.insertMessage ⟨body.sessionId.getD "", userId,
            body.message.getD "", "user", jsOrStr body.mode "evolve"⟩,
          Event.insertMessage ⟨body.sessionId.getD "", userId, aiReply,
            "assistant", jsOrStr body.mode "evolve"⟩,
          Event.updateSessionCount (body.sessionId.getD "") userId
            (session.message_count + 1)],
         ⟨200, .replyBody aiReply (jsOrStr body.mode "evolve")
           (body.sessionId.getD "")
           (max 0 (50 - ((Int.ofNat ((o.countRes.toOption).getD 0)) + 1)))⟩) := by
  by_cases hm : method = "POST"
  · subst hm
    by_cases hmsg : truthy body.message
    · by_cases hsid : truthy body.sessionId
      · by_cases hlim : dailyLimitHit o.countRes.toOption
        · simp [handleSendMessage, hmsg, hsid, hlim] at h
        · rcases hs : o.sessionRes with m | session
          · simp [handleSendMessage, hmsg, hsid, hlim, hs] at h
          · rcases hl : o.llmRes with f | orep
            · simp [handleSendMessage, hmsg, hsid, hlim, hs, hl] at h
            · rcases orep with _ | aiReply
              · simp [handleSendMessage, hmsg, hsid, hlim, hs, hl] at h
              · rcases hui : o.userInsertRes with _ | m
                · rcases hai : o.aiInsertRes with _ | m
                  · refine ⟨rfl, hmsg, hsid, by simpa using hlim,
                      session, aiReply, rfl, rfl, rfl, rfl, ?_⟩
                    simp [handleSendMessage, hmsg, hsid, hlim, hs, hl, hui, hai,
                      openAIMessagesOf, historyOf]
                  · simp [handleSendMessage, hmsg, hsid, hlim, hs, hl, hui, hai] at h
                · simp [handleSendMessage, hmsg, hsid, hlim, hs, hl, hui] at h
      · simp [handleSendMessage, hmsg, hsid] at h
    · simp [handleSendMessage, hmsg] at h
  · simp [handleSendMessage, hm] at h

/-- Exhaustive case analysis of `handleSendMessage`: every run falls in exactly
one of the nine source branches, with the branch conditions and the full
result recorded. -/
theorem sendMessage_cases (method : String) (body : SendBody) (userId : String)
    (o : SendOracle) :
    (method ≠ "POST" ∧ handleSendMessage method body userId o =
      ([], ⟨405, .errorBody "Method not allowed" none⟩)) ∨
    (method = "POST" ∧
      (truthy body.message = false ∨ truthy body.sessionId = false) ∧
      handleSendMessage method body userId o =
        ([], ⟨400, .errorBody "Message and sessionId are required" none⟩)) ∨
    (method = "POST" ∧ truthy body.message = true ∧ truthy body.sessionId = true ∧
      dailyLimitHit o.countRes.toOption = true ∧
      handleSendMessage method body userId o =
        ([Event.readDailyCount userId], ⟨429,
          .limitBody "You\x27ve reached the daily message limit for free users." 0⟩)) ∨
    (method = "POST" ∧ truthy body.message = true ∧ truthy body.sessionId = true ∧
      dailyLimitHit o.countRes.toOption = false ∧
      ((∃ m, o.sessionRes = .error m ∧
        handleSendMessage method body userId o =
          ([Event.readDailyCount userId,
            Event.readSessionRow (body.sessionId.getD "") userId],
           ⟨404, .errorBody "Session not found" (some m)⟩)) ∨
       (∃ session, o.sessionRes = .ok session ∧
        ((∃ f, o.llmRes = .error f ∧
          handleSendMessage method body userId o =
            ([Event.readDailyCount userId,
              Event.readSessionRow (body.sessionId.getD "") userId,
              Event.readHistory (body.sessionId.getD "") userId,
              Event.llmCall (openAIMessagesOf body o.historyRes)],
             ⟨500, .errorBody "AI service temporarily unavailable"
               (some ("OpenAI API returned " ++ toString f.status ++ ": " ++ f.text))⟩)) ∨
         (o.llmRes = .ok none ∧
          handleSendMessage method body userId o =
            ([Event.readDailyCount userId,
              Event.readSessionRow (body.sessionId.getD "") userId,
              Event.readHistory (body.sessionId.getD "") userId,
              Event.llmCall (openAIMessagesOf body o.historyRes)],
             ⟨500, .errorBody "Invalid AI response received"
               (some "AI did not provide a response")⟩)) ∨
         (∃ aiReply, o.llmRes = .ok (some aiReply) ∧
          ((∃ m, o.userInsertRes = some m ∧
            handleSendMessage method body userId o =
              ([Event.readDailyCount userId,
                Event.readSessionRow (body.sessionId.getD "") userId,
                Event.readHistory (body.sessionId.getD "") userId,
                Event.llmCall (openAIMessagesOf body o.historyRes),
                Event.insertMessage ⟨body.sessionId.getD "", userId,
                  body.message.getD "", "user", jsOrStr body.mode "evolve"⟩],
               ⟨500, .errorBody "Failed to save user message" (some m)⟩)) ∨
           (o.userInsertRes = none ∧
            ((∃ m, o.aiInsertRes = some m ∧
              handleSendMessage method body userId o =
                ([Event.readDailyCount userId,
                  Event.readSessionRow (body.sessionId.getD "") userId,
                  Event.readHistory (body.sessionId.getD "") userId,
                  Event.llmCall (openAIMessagesOf body o.historyRes),
                  Event.insertMessage ⟨body.sessionId.getD "", userId,
                    body.message.getD "", "user", jsOrStr body.mode "evolve"⟩,
                  Event.insertMessage ⟨body.sessionId.getD "", userId, aiReply,
                    "assistant", jsOrStr body.mode "evolve"⟩],
                 ⟨500, .errorBody "Failed to save AI response" (some m)⟩)) ∨
             (o.aiInsertRes = none ∧
              handleSendMessage method body userId o =
                ([Event.readDailyCount userId,
                  Event.readSessionRow (body.sessionId.getD "") userId,
                  Event.readHistory (body.sessionId.getD "") userId,
                  Event.llmCall (openAIMessagesOf body o.historyRes),
                  Event.insertMessage ⟨body.sessionId.getD "", userId,
                    body.message.getD "", "user", jsOrStr body.mode "evolve"⟩,
                  Event.insertMessage ⟨body.sessionId.getD "", userId, aiReply,
                    "assistant", jsOrStr body.mode "evolve"⟩,
                  Event.updateSessionCount (body.sessionId.getD "") userId
                    (session.message_count + 1)],
                 ⟨200, .replyBody aiReply (jsOrStr body.mode "evolve")
                   (body.sessionId.getD "")
                   (max 0 (50 - ((Int.ofNat ((o.countRes.toOption).getD 0)) + 1)))⟩)))))))))) := by
  by_cases hm : method = "POST"
  · subst hm
    by_cases hmsg : truthy body.message
    · by_cases hsid : truthy body.sessionId
      · by_cases hlim : dailyLimitHit o.countRes.toOption
        · refine Or.inr (Or.inr (Or.inl ⟨rfl, hmsg, hsid, hlim, ?_⟩))
          simp [handleSendMessage, hmsg, hsid, hlim]
        · refine Or.inr (Or.inr (Or.inr ⟨rfl, hmsg, hsid, by simpa using hlim, ?_⟩))
          rcases hs : o.sessionRes with m | session
          · exact Or.inl ⟨m, rfl, by
              simp [handleSendMessage, hmsg, hsid, hlim, hs]⟩
          · refine Or.inr ⟨session, rfl, ?_⟩
            rcases hl : o.llmRes with f | orep
            · exact Or.inl ⟨f, rfl, by
                simp [handleSendMessage, hmsg, hsid, hlim, hs, hl,
                  openAIMessagesOf, historyOf]⟩
            · rcases orep with _ | aiReply
              · exact Or.inr (Or.inl ⟨rfl, by
                  simp [handleSendMessage, hmsg, hsid, hlim, hs, hl,
                    openAIMessagesOf, historyOf]⟩)
              · refine Or.inr (Or.inr ⟨aiReply, rfl, ?_⟩)
                rcases hui : o.userInsertRes with _ | m
                · refine Or.inr ⟨rfl, ?_⟩
                  rcases hai : o.aiInsertRes with _ | m
                  · exact Or.inr ⟨rfl, by
                      simp [handleSendMessage, hmsg, hsid, hlim, hs, hl, hui, hai,
                        openAIMessagesOf, historyOf]⟩
                  · exact Or.inl ⟨m, rfl, by
                      simp [handleSendMessage, hmsg, hsid, hlim, hs, hl, hui, hai,
                        openAIMessagesOf, historyOf]⟩
                · exact Or.inl ⟨m, rfl, by
                    simp [handleSendMessage, hmsg, hsid, hlim, hs, hl, hui,
                      openAIMessagesOf, historyOf]⟩
      · exact Or.inr (Or.inl ⟨rfl, Or.inr (by simpa using hsid), by
          simp [handleSendMessage, hmsg, hsid]⟩)
    · exact Or.inr (Or.inl ⟨rfl, Or.inl (by simpa using hmsg), by
        simp [handleSendMessage, hmsg]⟩)
  · exact Or.inl ⟨hm, by simp [handleSendMessage, hm]⟩

/-- All three environment variables are present (and truthy). -/
def EnvVars.ok (env : EnvVars) : Bool :=
  truthy env.supabaseUrl && truthy env.supabaseServiceKey && truthy env.openaiApiKey

theorem env_guard_false_of_ok (env : EnvVars) (h : env.ok = true) :
    (!truthy env.supabaseUrl || !truthy env.supabaseServiceKey
      || !truthy env.openaiApiKey) = false := by
  simp only [EnvVars.ok, Bool.and_eq_true] at h
  simp [h.1.1, h.1.2, h.2]

/-- Any request lacking a valid bearer token (missing header, or
`supabase.auth.getUser` failing) never reaches an action handler. -/
theorem serve_noHandler_of_authFail (env : EnvVars) (req : ServeRequest)
    (o : ServeOracle)
    (h : req.authHeader = none ∨ (∃ m, o.authRes = .error m)) :
    (serve env req o).1 = none := by
  by_cases hopt : req.method = "OPTIONS"
  · simp [serve, hopt]
  · by_cases henv : (!truthy env.supabaseUrl || !truthy env.supabaseServiceKey
        || !truthy env.openaiApiKey) = true
    · simp [serve, hopt, henv]
    · rcases hh : req.authHeader with _ | a
      · simp [serve, hopt, henv, hh]
      · rcases h with h | ⟨m, hm⟩
        · exact absurd (hh ▸ h) (by simp)
        · simp [serve, hopt, henv, hh, hm]

/-- A request without a valid bearer token gets a 401 (when the environment is
configured and the request is not a CORS preflight). -/
theorem serve_401_of_authFail (env : EnvVars) (req : ServeRequest)
    (o : ServeOracle)
    (hopt : req.method ≠ "OPTIONS") (henv : env.ok = true)
    (h : req.authHeader = none ∨ (∃ m, o.authRes = .error m)) :
    (serve env req o).2.2.status = 401 := by
  have henv' := env_guard_false_of_ok env henv
  rcases hh : req.authHeader with _ | a
  · simp [serve, hopt, henv', hh]
  · rcases h with h | ⟨m, hm⟩
    · exact absurd (hh ▸ h) (by simp)
    · simp [serve, hopt, henv', hh, hm]

/-- An authenticated `sendMessage` request runs `handleSendMessage`. -/
theorem serve_sendMessage_eq (env : EnvVars) (req : ServeRequest)
    (o : ServeOracle) (userId a : String)
    (hopt : req.method ≠ "OPTIONS") (henv : env.ok = true)
    (hh : req.authHeader = some a) (ha : o.authRes = .ok userId)
    (hact : req.action = some "sendMessage") :
    serve env req o = (some .sendMessage,
      (handleSendMessage req.method req.sendBody userId o.sendOracle).1,
      (handleSendMessage req.method req.sendBody userId o.sendOracle).2) := by
  have henv' := env_guard_false_of_ok env henv
  simp [serve, hopt, henv', hh, ha, hact]

/-- An authenticated `createSession` request runs `handleCreateSession`. -/
theorem serve_createSession_eq (env : EnvVars) (req : ServeRequest)
    (o : ServeOracle) (userId a : String)
    (hopt : req.method ≠ "OPTIONS") (henv : env.ok = true)
    (hh : req.authHeader = some a) (ha : o.authRes = .ok userId)
    (hact : req.action = some "createSession") :
    serve env req o = (some .createSession,
      (handleCreateSession req.method req.createBody userId o.createRes).1,
      (handleCreateSession req.method req.createBody userId o.createRes).2) := by
  have henv' := env_guard_false_of_ok env henv
  simp [serve, hopt, henv', hh, ha, hact]

/-- An authenticated `getMessages` request runs `handleGetMessages`. -/
theorem serve_getMessages_eq (env : EnvVars) (req : ServeRequest)
    (o : ServeOracle) (userId a : String)
    (hopt : req.method ≠ "OPTIONS") (henv : env.ok = true)
    (hh : req.authHeader = some a) (ha : o.authRes = .ok userId)
    (hact : req.action = some "getMessages") :
    serve env req o = (some .getMessages,
      (handleGetMessages req.sessionIdParam userId o.getMsgSessionRes
        o.getMsgMessagesRes).1,
      (handleGetMessages req.sessionIdParam userId o.getMsgSessionRes
        o.getMsgMessagesRes).2) := by
  have henv' := env_guard_false_of_ok env henv
  simp [serve, hopt, henv', hh, ha, hact]

/-- An authenticated request whose `action` is outside the five dispatch
values (or absent) gets `400 Invalid action` and reaches no handler. -/
theorem serve_invalid_action (env : EnvVars) (req : ServeRequest)
    (o : ServeOracle) (userId a : String)
    (hopt : req.method ≠ "OPTIONS") (henv : env.ok = true)
    (hh : req.authHeader = some a) (ha : o.authRes = .ok userId)
    (hact : ∀ s, req.action = some s →
      s ∉ (["createSession", "sendMessage", "getSessions", "getMessages",
        "getUserStats"] : List String)) :
    serve env req o = (none, [], ⟨400, .errorBody "Invalid action" none⟩) := by
  have henv' := env_guard_false_of_ok env henv
  rcases hA : req.action with _ | s
  · simp [serve, hopt, henv', hh, ha, hA]
  · have hs := hact s hA
    simp only [List.mem_cons, List.not_mem_nil, or_false, not_or] at hs
    obtain ⟨h1, h2, h3, h4, h5⟩ := hs
    simp only [serve] at *
    rw [if_neg hopt, if_neg (by simp [henv']), hh, ha, hA]
    split <;> simp_all

/-- If a handler ran, the request was authenticated (header present,
`getUser` succeeded) and the `action` parameter named exactly that handler. -/
theorem serve_tag_spec (env : EnvVars) (req : ServeRequest) (o : ServeOracle)
    (t : HandlerTag) (ht : (serve env req o).1 = some t) :
    req.action = some t.action ∧ (∃ a, req.authHeader = some a) ∧
    (∃ userId, o.authRes = .ok userId) := by
  by_cases hopt : req.method = "OPTIONS"
  · simp [serve, hopt] at ht
  · by_cases henv : (!truthy env.supabaseUrl || !truthy env.supabaseServiceKey
        || !truthy env.openaiApiKey) = true
    · simp [serve, hopt, henv] at ht
    · rcases hh : req.authHeader with _ | a
      · simp [serve, hopt, henv, hh] at ht
      · rcases ha : o.authRes with m | userId
        · simp [serve, hopt, henv, hh, ha] at ht
        · refine ⟨?_, ⟨a, rfl⟩, ⟨userId, rfl⟩⟩
          simp only [serve] at ht
          rw [if_neg hopt, if_neg henv, hh, ha] at ht
          rcases hA : req.action with _ | s
          · rw [hA] at ht; simp at ht
          · rw [hA] at ht
            by_cases h1 : s = "createSession"
            · subst h1; simp at ht; subst ht; rfl
            · by_cases h2 : s = "sendMessage"
              · subst h2; simp at ht; subst ht; rfl
              · by_cases h3 : s = "getSessions"
                · subst h3; simp at ht; subst ht; rfl
                · by_cases h4 : s = "getMessages"
                  · subst h4; simp at ht; subst ht; rfl
                  · by_cases h5 : s = "getUserStats"
                    · subst h5; simp at ht; subst ht; rfl
                    · simp [h1, h2, h3, h4, h5] at ht

theorem jsOrStr_eq (v : Option String) (d : String) :
    jsOrStr v d = if truthy v = true then v.getD "" else d := by
  rcases v with _ | s
  · simp [jsOrStr, truthy]
  · by_cases h : s.isEmpty <;> simp [jsOrStr, truthy, h]

/-- A concrete session row, used by the witnesses. -/
def sessC : Session := ⟨"s1", "u1", "Title", "evolve", 2, "2025-01-01T00:00:00Z"⟩

/-- A concrete well-formed `sendMessage` body, used by the witnesses. -/
def bodyC : SendBody := ⟨some "hi", some "s1", some "reflect"⟩

/-- A concrete oracle for a fully successful `sendMessage` run. -/
def oSendOk : SendOracle :=
  ⟨.ok 3, .ok sessC, .ok [⟨"user", "hello"⟩, ⟨"assistant", "hi there"⟩],
   .ok (some "a reply"), none, none, none⟩

/-- A concrete oracle whose daily count reports the limit already reached. -/
def oSendLimited : SendOracle :=
  ⟨.ok 50, .ok sessC, .ok [], .ok (some "r"), none, none, none⟩

/-- A concrete oracle whose daily count query fails. -/
def oSendCountErr : SendOracle :=
  ⟨.error "count failed", .ok sessC, .ok [], .ok (some "r"), none, none, none⟩

/-- C1: every `sendMessage` request that succeeds (status 200) issued exactly
this sequence of external operations, in this order: the daily count query,
the session-ownership lookup, the history fetch, the chat-completion call, the
two `chat_messages` inserts (user first, then assistant), and the session
update — and nothing else, so in particular no other database writes. -/
theorem sendMessage_success_operation_sequence (method : String)
    (body : SendBody) (userId : String) (o : SendOracle)
    (h : (handleSendMessage method body userId o).2.status = 200) :
    ∃ sid msgs userRow aiRow n,
      (handleSendMessage method body userId o).1 =
        [Event.readDailyCount userId, Event.readSessionRow sid userId,
         Event.readHistory sid userId, Event.llmCall msgs,
         Event.insertMessage userRow, Event.insertMessage aiRow,
         Event.updateSessionCount sid userId n] ∧
      userRow.role = "user" ∧ aiRow.role = "assistant" := by
  obtain ⟨hm, hmsg, hsid, hlim, session, aiReply, hs, hl, hui, hai, heq⟩ :=
    sendMessage_success_shape method body userId o h
  exact ⟨body.sessionId.getD "", openAIMessagesOf body o.historyRes,
    ⟨body.sessionId.getD "", userId, body.message.getD "", "user",
      jsOrStr body.mode "evolve"⟩,
    ⟨body.sessionId.getD "", userId, aiReply, "assistant",
      jsOrStr body.mode "evolve"⟩,
    session.message_count + 1, by rw [heq], rfl, rfl⟩

theorem sendMessage_success_operation_sequence_witness :
    ∃ sid msgs userRow aiRow n,
      (handleSendMessage "POST" bodyC "u1" oSendOk).1 =
        [Event.readDailyCount "u1", Event.readSessionRow sid "u1",
         Event.readHistory sid "u1", Event.llmCall msgs,
         Event.insertMessage userRow, Event.insertMessage aiRow,
         Event.updateSessionCount sid "u1" n] ∧
      userRow.role = "user" ∧ aiRow.role = "assistant" :=
  sendMessage_success_operation_sequence "POST" bodyC "u1" oSendOk (by decide)

/-- C2: a `sendMessage` request by an authenticated user whose daily-count
query reports at least 50 user-role messages today is rejected with 429 and
`remainingMessages: 0`, and the rejected request issues no database write. -/
theorem sendMessage_daily_limit_429 (body : SendBody) (userId : String)
    (o : SendOracle) (c : Nat)
    (hmsg : truthy body.message = true) (hsid : truthy body.sessionId = true)
    (hc : o.countRes = .ok c) (h50 : 50 ≤ c) :
    (handleSendMessage "POST" body userId o).2.status = 429 ∧
    (handleSendMessage "POST" body userId o).2.body =
      .limitBody "You\x27ve reached the daily message limit for free users." 0 ∧
    (handleSendMessage "POST" body userId o).1.filter Event.isWrite = [] := by
  have hlim : dailyLimitHit o.countRes.toOption = true := by
    simp only [hc, Except.toOption, dailyLimitHit]
    simp
    omega
  simp [handleSendMessage, hmsg, hsid, hlim, Event.isWrite]

theorem sendMessage_daily_limit_429_witness :
    (handleSendMessage "POST" bodyC "u1" oSendLimited).2.status = 429 ∧
    (handleSendMessage "POST" bodyC "u1" oSendLimited).2.body =
      .limitBody "You\x27ve reached the daily message limit for free users." 0 ∧
    (handleSendMessage "POST" bodyC "u1" oSendLimited).1.filter
      Event.isWrite = [] :=
  sendMessage_daily_limit_429 bodyC "u1" oSendLimited 50 (by decide) (by decide)
    rfl (by decide)

/-- C8: a successful `sendMessage` writes exactly two `chat_messages` rows
(role `user` then role `assistant`) but issues exactly one `chat_sessions`
update, whose payload sets only `message_count`, to the fetched session's
`message_count + 1`: `message_count` counts exchanges, not stored messages. -/
theorem sendMessage_success_write_frame (method : String) (body : SendBody)
    (userId : String) (o : SendOracle)
    (h : (handleSendMessage method body userId o).2.status = 200) :
    ∃ session userRow aiRow,
      o.sessionRes = .ok session ∧
      (handleSendMessage method body userId o).1.filter Event.isWrite =
        [Event.insertMessage userRow, Event.insertMessage aiRow,
         Event.updateSessionCount (body.sessionId.getD "") userId
           (session.message_count + 1)] ∧
      userRow.role = "user" ∧ aiRow.role = "assistant" := by
  obtain ⟨hm, hmsg, hsid, hlim, session, aiReply, hs, hl, hui, hai, heq⟩ :=
    sendMessage_success_shape method body userId o h
  refine ⟨session,
    ⟨body.sessionId.getD "", userId, body.message.getD "", "user",
      jsOrStr body.mode "evolve"⟩,
    ⟨body.sessionId.getD "", userId, aiReply, "assistant",
      jsOrStr body.mode "evolve"⟩, hs, ?_, rfl, rfl⟩
  rw [heq]
  simp [Event.isWrite, List.filter]

theorem sendMessage_success_write_frame_witness :
    ∃ session userRow aiRow,
      oSendOk.sessionRes = .ok session ∧
      (handleSendMessage "POST" bodyC "u1" oSendOk).1.filter Event.isWrite =
        [Event.insertMessage userRow, Event.insertMessage aiRow,
         Event.updateSessionCount (bodyC.sessionId.getD "") "u1"
           (session.message_count + 1)] ∧
      userRow.role = "user" ∧ aiRow.role = "assistant" :=
  sendMessage_success_write_frame "POST" bodyC "u1" oSendOk (by decide)

/-- C9: if the daily-count query fails (count `null`) or reports 0, the guard
`messageCount && messageCount >= 50` is false, the 429 branch is skipped, and
the request is processed exactly as if the count query had succeeded with 0
(in particular the count error is never surfaced to the caller). -/
theorem sendMessage_count_failure_proceeds (method : String) (body : SendBody)
    (userId : String) (o : SendOracle)
    (hc : (∃ e, o.countRes = .error e) ∨ o.countRes = .ok 0) :
    dailyLimitHit o.countRes.toOption = false ∧
    handleSendMessage method body userId o =
      handleSendMessage method body userId { o with countRes := .ok 0 } ∧
    (handleSendMessage method body userId o).2.status ≠ 429 := by
  have ht : o.countRes.toOption = none ∨ o.countRes.toOption = some 0 := by
    rcases hc with ⟨e, h⟩ | h <;> simp [h, Except.toOption]
  have h1 : dailyLimitHit o.countRes.toOption = false := by
    rcases ht with h | h <;> simp [h, dailyLimitHit]
  have h2 : o.countRes.toOption.getD 0 = 0 := by
    rcases ht with h | h <;> simp [h]
  refine ⟨h1, ?_, ?_⟩
  · simp only [handleSendMessage, h1, h2]
    simp [dailyLimitHit, Except.toOption]
  · rcases sendMessage_cases method body userId o with
      ⟨_, heq⟩ | ⟨_, _, heq⟩ | ⟨_, _, _, hlim, _⟩ | ⟨_, _, _, _,
        ⟨m, _, heq⟩ | ⟨s, _,
          ⟨f, _, heq⟩ | ⟨_, heq⟩ | ⟨r, _,
            ⟨m, _, heq⟩ | ⟨_, ⟨m, _, heq⟩ | ⟨_, heq⟩⟩⟩⟩⟩
    · rw [heq]; simp
    · rw [heq]; simp
    · exact absurd hlim (by simp [h1])
    · rw [heq]; simp
    · rw [heq]; simp
    · rw [heq]; simp
    · rw [heq]; simp
    · rw [heq]; simp
    · rw [heq]; simp

theorem sendMessage_count_failure_proceeds_witness :
    dailyLimitHit oSendCountErr.countRes.toOption = false ∧
    handleSendMessage "POST" bodyC "u1" oSendCountErr =
      handleSendMessage "POST" bodyC "u1"
        { oSendCountErr with countRes := .ok 0 } ∧
    (handleSendMessage "POST" bodyC "u1" oSendCountErr).2.status ≠ 429 :=
  sendMessage_count_failure_proceeds "POST" bodyC "u1" oSendCountErr
    (Or.inl ⟨"count failed", rfl⟩)

/-- C10: `handleCreateSession` inserts a `chat_sessions` row whose `user_id`
is the authenticated user's id (never read from the request body), whose
`message_count` is 0, whose title defaults to `New Therapy Session` when the
request's title is absent or empty, and whose mode defaults to `evolve`
likewise; on insert success the response is `201 { session }`. -/
theorem createSession_inserted_row_spec (body : CreateBody) (userId : String)
    (r : Except String Session) :
    (handleCreateSession "POST" body userId r).1 =
      [Event.insertSession
        ⟨userId,
         (if truthy body.title = true then body.title.getD ""
          else "New Therapy Session"),
         (if truthy body.mode = true then body.mode.getD "" else "evolve"),
         0⟩] ∧
    (∀ s, r = .ok s →
      (handleCreateSession "POST" body userId r).2 =
        ⟨201, .sessionBody s⟩) := by
  constructor
  · rcases r with m | s <;>
      simp [handleCreateSession, jsOrStr_eq]
  · rintro s rfl
    simp [handleCreateSession]

theorem createSession_inserted_row_spec_witness :
    (handleCreateSession "POST" ⟨none, some ""⟩ "u1" (.ok sessC)).2 =
      ⟨201, .sessionBody sessC⟩ :=
  (createSession_inserted_row_spec ⟨none, some ""⟩ "u1" (.ok sessC)).2 sessC rfl

theorem dailyLimitHit_of_count (o : SendOracle) (c : Nat)
    (hc : o.countRes = .ok c) (h50 : 50 ≤ c) :
    dailyLimitHit o.countRes.toOption = true := by
  simp only [hc, Except.toOption, dailyLimitHit]
  simp
  omega

theorem sendMessage_429_run (body : SendBody) (userId : String)
    (o : SendOracle)
    (hmsg : truthy body.message = true) (hsid : truthy body.sessionId = true)
    (hlim : dailyLimitHit o.countRes.toOption = true) :
    handleSendMessage "POST" body userId o =
      ([Event.readDailyCount userId], ⟨429,
        .limitBody "You\x27ve reached the daily message limit for free users." 0⟩) := by
  simp [handleSendMessage, hmsg, hsid, hlim]

theorem sendMessage_404_run (body : SendBody) (userId m : String)
    (o : SendOracle)
    (hmsg : truthy body.message = true) (hsid : truthy body.sessionId = true)
    (hlim : dailyLimitHit o.countRes.toOption = false)
    (hs : o.sessionRes = .error m) :
    handleSendMessage "POST" body userId o =
      ([Event.readDailyCount userId,
        Event.readSessionRow (body.sessionId.getD "") userId],
       ⟨404, .errorBody "Session not found" (some m)⟩) := by
  simp [handleSendMessage, hmsg, hsid, hlim, hs]

theorem sendMessage_500_llm_run (body : SendBody) (userId : String)
    (o : SendOracle) (session : Session) (f : LlmFailure)
    (hmsg : truthy body.message = true) (hsid : truthy body.sessionId = true)
    (hlim : dailyLimitHit o.countRes.toOption = false)
    (hs : o.sessionRes = .ok session) (hl : o.llmRes = .error f) :
    handleSendMessage "POST" body userId o =
      ([Event.readDailyCount userId,
        Event.readSessionRow (body.sessionId.getD "") userId,
        Event.readHistory (body.sessionId.getD "") userId,
        Event.llmCall (openAIMessagesOf body o.historyRes)],
       ⟨500, .errorBody "AI service temporarily unavailable"
         (some ("OpenAI API returned " ++ toString f.status ++ ": " ++ f.text))⟩) := by
  simp [handleSendMessage, hmsg, hsid, hlim, hs, hl, openAIMessagesOf, historyOf]

theorem sendMessage_500_userInsert_run (body : SendBody) (userId m : String)
    (o : SendOracle) (session : Session) (r : String)
    (hmsg : truthy body.message = true) (hsid : truthy body.sessionId = true)
    (hlim : dailyLimitHit o.countRes.toOption = false)
    (hs : o.sessionRes = .ok session) (hl : o.llmRes = .ok (some r))
    (hui : o.userInsertRes = some m) :
    handleSendMessage "POST" body userId o =
      ([Event.readDailyCount userId,
        Event.readSessionRow (body.sessionId.getD "") userId,
        Event.readHistory (body.sessionId.getD "") userId,
        Event.llmCall (openAIMessagesOf body o.historyRes),
        Event.insertMessage ⟨body.sessionId.getD "", userId,
          body.message.getD "", "user", jsOrStr body.mode "evolve"⟩],
       ⟨500, .errorBody "Failed to save user message" (some m)⟩) := by
  simp [handleSendMessage, hmsg, hsid, hlim, hs, hl, hui, openAIMessagesOf,
    historyOf]

theorem sendMessage_500_aiInsert_run (body : SendBody) (userId m : String)
    (o : SendOracle) (session : Session) (r : String)
    (hmsg : truthy body.message = true) (hsid : truthy body.sessionId = true)
    (hlim : dailyLimitHit o.countRes.toOption = false)
    (hs : o.sessionRes = .ok session) (hl : o.llmRes = .ok (some r))
    (hui : o.userInsertRes = none) (hai : o.aiInsertRes = some m) :
    handleSendMessage "POST" body userId o =
      ([Event.readDailyCount userId,
        Event.readSessionRow (body.sessionId.getD "") userId,
        Event.readHistory (body.sessionId.getD "") userId,
        Event.llmCall (openAIMessagesOf body o.historyRes),
        Event.insertMessage ⟨body.sessionId.getD "", userId,
          body.message.getD "", "user", jsOrStr body.mode "evolve"⟩,
        Event.insertMessage ⟨body.sessionId.getD "", userId, r,
          "assistant", jsOrStr body.mode "evolve"⟩],
       ⟨500, .errorBody "Failed to save AI response" (some m)⟩) := by
  simp [handleSendMessage, hmsg, hsid, hlim, hs, hl, hui, hai,
    openAIMessagesOf, historyOf]

theorem createSession_500_run (body : CreateBody) (userId m : String) :
    handleCreateSession "POST" body userId (.error m) =
      ([Event.insertSession ⟨userId, jsOrStr body.title "New Therapy Session",
          jsOrStr body.mode "evolve", 0⟩],
       ⟨500, .errorBody "Failed to create session" (some m)⟩) := by
  simp [handleCreateSession]

theorem getMessages_404_run (sidParam : Option String) (userId m : String)
    (mres : Except String (Option (List MessageRow)))
    (hp : truthy sidParam = true) :
    handleGetMessages sidParam userId (.error m) mres =
      ([Event.readSessionRow (sidParam.getD "") userId],
       ⟨404, .errorBody "Session not found" none⟩) := by
  simp [handleGetMessages, hp]

/-- C3: the error-to-status mapping: a missing or invalid bearer token gives
401; a `sendMessage` or `getMessages` whose ownership lookup finds no session
gives 404; a `sendMessage` over the daily limit gives 429; and a failure of
the chat-completion call or of any database insert gives 500. -/
theorem serve_error_status_mapping (env : EnvVars) (req : ServeRequest)
    (o : ServeOracle)
    (henv : env.ok = true) (hopt : req.method ≠ "OPTIONS") :
    ((req.authHeader = none ∨ (∃ m, o.authRes = .error m)) →
      (serve env req o).2.2.status = 401) ∧
    (∀ a userId, req.authHeader = some a → o.authRes = .ok userId →
      (((req.action = some "sendMessage" ∧ req.method = "POST" ∧
          truthy req.sendBody.message = true ∧
          truthy req.sendBody.sessionId = true ∧
          dailyLimitHit o.sendOracle.countRes.toOption = false ∧
          (∃ m, o.sendOracle.sessionRes = .error m)) →
        (serve env req o).2.2.status = 404) ∧
      ((req.action = some "getMessages" ∧ truthy req.sessionIdParam = true ∧
          (∃ m, o.getMsgSessionRes = .error m)) →
        (serve env req o).2.2.status = 404) ∧
      ((req.action = some "sendMessage" ∧ req.method = "POST" ∧
          truthy req.sendBody.message = true ∧
          truthy req.sendBody.sessionId = true ∧
          (∃ c, o.sendOracle.countRes = .ok c ∧ 50 ≤ c)) →
        (serve env req o).2.2.status = 429) ∧
      ((req.action = some "sendMessage" ∧ req.method = "POST" ∧
          truthy req.sendBody.message = true ∧
          truthy req.sendBody.sessionId = true ∧
          dailyLimitHit o.sendOracle.countRes.toOption = false ∧
          (∃ s, o.sendOracle.sessionRes = .ok s) ∧
          (∃ f, o.sendOracle.llmRes = .error f)) →
        (serve env req o).2.2.status = 500) ∧
      ((req.action = some "sendMessage" ∧ req.method = "POST" ∧
          truthy req.sendBody.message = true ∧
          truthy req.sendBody.sessionId = true ∧
          dailyLimitHit o.sendOracle.countRes.toOption = false ∧
          (∃ s, o.sendOracle.sessionRes = .ok s) ∧
          (∃ r, o.sendOracle.llmRes = .ok (some r)) ∧
          (∃ m, o.sendOracle.userInsertRes = some m)) →
        (serve env req o).2.2.status = 500) ∧
      ((req.action = some "sendMessage" ∧ req.method = "POST" ∧
          truthy req.sendBody.message = true ∧
          truthy req.sendBody.sessionId = true ∧
          dailyLimitHit o.sendOracle.countRes.toOption = false ∧
          (∃ s, o.sendOracle.sessionRes = .ok s) ∧
          (∃ r, o.sendOracle.llmRes = .ok (some r)) ∧
          o.sendOracle.userInsertRes = none ∧
          (∃ m, o.sendOracle.aiInsertRes = some m)) →
        (serve env req o).2.2.status = 500) ∧
      ((req.action = some "createSession" ∧ req.method = "POST" ∧
          (∃ m, o.createRes = .error m)) →
        (serve env req o).2.2.status = 500))) := by
  constructor
  · exact serve_401_of_authFail env req o hopt henv
  · intro a userId hh ha
    refine ⟨?_, ?_, ?_, ?_, ?_, ?_, ?_⟩
    · rintro ⟨hact, hP, hmsg, hsid, hlim, m, hs⟩
      rw [serve_sendMessage_eq env req o userId a hopt henv hh ha hact, hP,
        sendMessage_404_run req.sendBody userId m o.sendOracle hmsg hsid hlim hs]
    · rintro ⟨hact, hp, m, hs⟩
      rw [serve_getMessages_eq env req o userId a hopt henv hh ha hact]
      rw [show o.getMsgSessionRes = .error m from hs]
      rw [getMessages_404_run req.sessionIdParam userId m o.getMsgMessagesRes hp]
    · rintro ⟨hact, hP, hmsg, hsid, c, hc, h50⟩
      rw [serve_sendMessage_eq env req o userId a hopt henv hh ha hact, hP,
        sendMessage_429_run req.sendBody userId o.sendOracle hmsg hsid
          (dailyLimitHit_of_count o.sendOracle c hc h50)]
    · rintro ⟨hact, hP, hmsg, hsid, hlim, ⟨s, hs⟩, f, hl⟩
      rw [serve_sendMessage_eq env req o userId a hopt henv hh ha hact, hP,
        sendMessage_500_llm_run req.sendBody userId o.sendOracle s f hmsg hsid
          hlim hs hl]
    · rintro ⟨hact, hP, hmsg, hsid, hlim, ⟨s, hs⟩, ⟨r, hl⟩, m, hui⟩
      rw [serve_sendMessage_eq env req o userId a hopt henv hh ha hact, hP,
        sendMessage_500_userInsert_run req.sendBody userId m o.sendOracle s r
          hmsg hsid hlim hs hl hui]
    · rintro ⟨hact, hP, hmsg, hsid, hlim, ⟨s, hs⟩, ⟨r, hl⟩, hui, m, hai⟩
      rw [serve_sendMessage_eq env req o userId a hopt henv hh ha hact, hP,
        sendMessage_500_aiInsert_run req.sendBody userId m o.sendOracle s r
          hmsg hsid hlim hs hl hui hai]
    · rintro ⟨hact, hP, m, hc⟩
      rw [serve_createSession_eq env req o userId a hopt henv hh ha hact, hP]
      rw [show o.createRes = .error m from hc]
      rw [createSession_500_run req.createBody userId m]

/-- A concrete valid environment, used by the witnesses. -/
def envC : EnvVars := ⟨some "https://proj.supabase.co", some "svc", some "sk"⟩

/-- A concrete authenticated `sendMessage` request, used by the witnesses. -/
def reqC : ServeRequest :=
  ⟨"POST", some "Bearer tok", some "sendMessage", none, bodyC, ⟨none, none⟩⟩

/-- The same request with the authorization header missing. -/
def reqNoAuthC : ServeRequest :=
  ⟨"POST", none, some "sendMessage", none, bodyC, ⟨none, none⟩⟩

/-- A concrete serve oracle whose every call succeeds. -/
def oServeC : ServeOracle :=
  ⟨.ok "u1", oSendOk, .ok sessC, .ok (some []), .ok (), .ok (some []),
   some 0, some 0⟩

theorem serve_error_status_mapping_witness :
    (serve envC reqNoAuthC oServeC).2.2.status = 401 :=
  (serve_error_status_mapping envC reqNoAuthC oServeC (by decide)
    (by decide)).1 (Or.inl rfl)

/-- C6: the endpoint dispatches exactly on the `action` query parameter over
the five values and only after bearer-token authentication: without a valid
token no handler runs; an authenticated request with any other (or missing)
`action` gets `400 Invalid action`; and a handler runs only when the request
was authenticated and `action` named exactly that handler. -/
theorem serve_dispatch_spec (env : EnvVars) (req : ServeRequest)
    (o : ServeOracle) :
    ((req.authHeader = none ∨ (∃ m, o.authRes = .error m)) →
      (serve env req o).1 = none) ∧
    (∀ a userId, env.ok = true → req.method ≠ "OPTIONS" →
      req.authHeader = some a → o.authRes = .ok userId →
      (∀ s, req.action = some s →
        s ∉ (["createSession", "sendMessage", "getSessions", "getMessages",
          "getUserStats"] : List String) →
        serve env req o = (none, [], ⟨400, .errorBody "Invalid action" none⟩)) ∧
      (req.action = none →
        serve env req o = (none, [], ⟨400, .errorBody "Invalid action" none⟩))) ∧
    (∀ t, (serve env req o).1 = some t →
      req.action = some t.action ∧ (∃ a, req.authHeader = some a) ∧
      (∃ userId, o.authRes = .ok userId)) := by
  refine ⟨serve_noHandler_of_authFail env req o, ?_, ?_⟩
  · intro a userId henv hopt hh ha
    constructor
    · intro s hA hs
      exact serve_invalid_action env req o userId a hopt henv hh ha
        (fun s' h' => by rw [hA] at h'; cases h'; exact hs)
    · intro hA
      exact serve_invalid_action env req o userId a hopt henv hh ha
        (fun s' h' => by rw [hA] at h'; cases h')
  · intro t ht
    exact serve_tag_spec env req o t ht

theorem serve_dispatch_spec_witness :
    (serve envC reqNoAuthC oServeC).1 = none :=
  (serve_dispatch_spec envC reqNoAuthC oServeC).1 (Or.inl rfl)

/-- A concrete oracle whose session-ownership lookup finds no session. -/
def oSendNoSession : SendOracle :=
  ⟨.ok 0, .error "no rows returned", .ok [], .ok (some "r"), none, none, none⟩

/-- C4 counterexample: a `sendMessage` whose ownership check finds no session
does return 404, but only after the daily-count query has already been issued
against the messages table, so "without touching the messages table" fails
for `handleSendMessage`. -/
theorem sendMessage_404_touches_messages_table :
    (handleSendMessage "POST" bodyC "u1" oSendNoSession).2.status = 404 ∧
    Event.readDailyCount "u1" ∈
      (handleSendMessage "POST" bodyC "u1" oSendNoSession).1 ∧
    (Event.readDailyCount "u1").touchesMessagesTable = true :=
  ⟨by decide, by decide, rfl⟩

/-- C4 amended: `handleSendMessage` inserts message rows — always carrying the
authenticated user's id and the checked session's id — only when the single
equality-filtered ownership lookup found the session; when the lookup finds no
session both handlers return 404 and issue no database write (though
`handleSendMessage` has by then already issued the read-only daily count query
against the messages table); `handleGetMessages` returns 200 only after the
check succeeds, touches the messages table not at all on the 404 path, and
never writes. -/
theorem message_ownership_invariant (method : String) (body : SendBody)
    (userId : String) (o : SendOracle) (sidParam : Option String)
    (sres : Except String Unit)
    (mres : Except String (Option (List MessageRow))) :
    (∀ row, Event.insertMessage row ∈ (handleSendMessage method body userId o).1 →
      (∃ s, o.sessionRes = .ok s) ∧ row.user_id = userId ∧
      row.session_id = body.sessionId.getD "") ∧
    (∀ m, o.sessionRes = .error m →
      Event.readSessionRow (body.sessionId.getD "") userId ∈
        (handleSendMessage method body userId o).1 →
      (handleSendMessage method body userId o).2.status = 404 ∧
      (handleSendMessage method body userId o).1.filter Event.isWrite = []) ∧
    ((handleGetMessages sidParam userId sres mres).2.status = 200 →
      ∃ u, sres = .ok u) ∧
    (∀ m, sres = .error m → truthy sidParam = true →
      (handleGetMessages sidParam userId sres mres).2.status = 404 ∧
      (handleGetMessages sidParam userId sres mres).1.filter
        Event.touchesMessagesTable = []) ∧
    (handleGetMessages sidParam userId sres mres).1.filter Event.isWrite
      = [] := by
  refine ⟨?_, ?_, ?_, ?_, ?_⟩
  · intro row hmem
    rcases sendMessage_cases method body userId o with
      ⟨_, heq⟩ | ⟨_, _, heq⟩ | ⟨_, _, _, _, heq⟩ | ⟨_, _, _, _,
        ⟨m, hs, heq⟩ | ⟨s, hs,
          ⟨f, hl, heq⟩ | ⟨hl, heq⟩ | ⟨r, hl,
            ⟨m, hui, heq⟩ | ⟨hui, ⟨m, hai, heq⟩ | ⟨hai, heq⟩⟩⟩⟩⟩
    · rw [heq] at hmem; simp at hmem
    · rw [heq] at hmem; simp at hmem
    · rw [heq] at hmem; simp at hmem
    · rw [heq] at hmem; simp at hmem
    · rw [heq] at hmem; simp at hmem
    · rw [heq] at hmem; simp at hmem
    · rw [heq] at hmem; simp at hmem
      exact ⟨⟨s, hs⟩, by rw [hmem], by rw [hmem]⟩
    · rw [heq] at hmem; simp at hmem
      rcases hmem with hmem | hmem
      · exact ⟨⟨s, hs⟩, by rw [hmem], by rw [hmem]⟩
      · exact ⟨⟨s, hs⟩, by rw [hmem], by rw [hmem]⟩
    · rw [heq] at hmem; simp at hmem
      rcases hmem with hmem | hmem
      · exact ⟨⟨s, hs⟩, by rw [hmem], by rw [hmem]⟩
      · exact ⟨⟨s, hs⟩, by rw [hmem], by rw [hmem]⟩
  · intro m hcond hmem
    rcases sendMessage_cases method body userId o with
      ⟨_, heq⟩ | ⟨_, _, heq⟩ | ⟨_, _, _, _, heq⟩ | ⟨_, _, _, _,
        ⟨m', hs, heq⟩ | ⟨s, hs, _⟩⟩
    · rw [heq] at hmem; simp at hmem
    · rw [heq] at hmem; simp at hmem
    · rw [heq] at hmem; simp at hmem
    · rw [heq]; simp [Event.isWrite]
    · rw [hcond] at hs; cases hs
  · intro h200
    rcases sres with m | u
    · by_cases hp : truthy sidParam <;>
        simp [handleGetMessages, hp] at h200
    · exact ⟨u, rfl⟩
  · intro m hsres hp
    rw [hsres, getMessages_404_run sidParam userId m mres hp]
    simp [Event.touchesMessagesTable]
  · by_cases hp : truthy sidParam
    · rcases sres with m | u
      · simp [handleGetMessages, hp, Event.isWrite]
      · rcases mres with m' | msgs <;>
          simp [handleGetMessages, hp, Event.isWrite]
    · simp [handleGetMessages, hp]

/-- C5 counterexample: a run whose daily-count query fails with message
`count failed` still completes as a 200 success whose body nowhere carries
that message: the count error is swallowed, so not every downstream failure
is surfaced to the caller. -/
theorem sendMessage_swallows_count_error :
    (handleSendMessage "POST" bodyC "u1" oSendCountErr).2.status = 200 ∧
    ¬ (handleSendMessage "POST" bodyC "u1" oSendCountErr).2.body.surfacesDetail
        "count failed" := by
  refine ⟨by decide, ?_⟩
  have hb : (handleSendMessage "POST" bodyC "u1" oSendCountErr).2.body =
      .replyBody "r" "reflect" "s1" 49 := by decide
  rw [hb]
  simp [RespBody.surfacesDetail]

/-- C5 amended: failures of the session-ownership lookup, the chat-completion
call and the two message inserts are surfaced to the caller inside the error
response's details; failures of the daily-count query, the history fetch and
the session-count update are only logged — the run is identical to one in
which those calls succeeded, and can therefore end in a success response. -/
theorem sendMessage_error_surfacing (method : String) (body : SendBody)
    (userId : String) (o : SendOracle) :
    (∀ m, o.sessionRes = .error m →
      Event.readSessionRow (body.sessionId.getD "") userId ∈
        (handleSendMessage method body userId o).1 →
      (handleSendMessage method body userId o).2.status = 404 ∧
      (handleSendMessage method body userId o).2.body.surfacesDetail m) ∧
    (∀ f msgs, o.llmRes = .error f →
      Event.llmCall msgs ∈ (handleSendMessage method body userId o).1 →
      (handleSendMessage method body userId o).2.status = 500 ∧
      (handleSendMessage method body userId o).2.body.surfacesDetail f.text) ∧
    (∀ m row, o.userInsertRes = some m →
      Event.insertMessage row ∈ (handleSendMessage method body userId o).1 →
      (handleSendMessage method body userId o).2.status = 500 ∧
      (handleSendMessage method body userId o).2.body.surfacesDetail m) ∧
    (∀ m row, o.userInsertRes = none → o.aiInsertRes = some m →
      Event.insertMessage row ∈ (handleSendMessage method body userId o).1 →
      (handleSendMessage method body userId o).2.status = 500 ∧
      (handleSendMessage method body userId o).2.body.surfacesDetail m) ∧
    (∀ e, o.countRes = .error e →
      handleSendMessage method body userId o =
        handleSendMessage method body userId { o with countRes := .ok 0 }) ∧
    (∀ e, o.historyRes = .error e →
      handleSendMessage method body userId o =
        handleSendMessage method body userId { o with historyRes := .ok [] }) ∧
    (∀ e, o.updateRes = some e →
      handleSendMessage method body userId o =
        handleSendMessage method body userId { o with updateRes := none }) := by
  refine ⟨?_, ?_, ?_, ?_, ?_, ?_, ?_⟩
  · intro m hcond hmem
    rcases sendMessage_cases method body userId o with
      ⟨_, heq⟩ | ⟨_, _, heq⟩ | ⟨_, _, _, _, heq⟩ | ⟨_, _, _, _,
        ⟨m', hs, heq⟩ | ⟨s, hs, _⟩⟩
    · rw [heq] at hmem; simp at hmem
    · rw [heq] at hmem; simp at hmem
    · rw [heq] at hmem; simp at hmem
    · rw [hcond] at hs
      injection hs with hs'
      subst hs'
      rw [heq]
      exact ⟨rfl, List.infix_refl _⟩
    · rw [hcond] at hs; cases hs
  · intro f msgs hcond hmem
    rcases sendMessage_cases method body userId o with
      ⟨_, heq⟩ | ⟨_, _, heq⟩ | ⟨_, _, _, _, heq⟩ | ⟨_, _, _, _,
        ⟨m', hs, heq⟩ | ⟨s, hs,
          ⟨f', hl, heq⟩ | ⟨hl, heq⟩ | ⟨r, hl, _⟩⟩⟩
    · rw [heq] at hmem; simp at hmem
    · rw [heq] at hmem; simp at hmem
    · rw [heq] at hmem; simp at hmem
    · rw [heq] at hmem; simp at hmem
    · rw [hcond] at hl
      injection hl with hl'
      subst hl'
      rw [heq]
      refine ⟨rfl, ?_⟩
      show f.text.data <:+:
        ("OpenAI API returned " ++ toString f.status ++ ": " ++ f.text).data
      exact ⟨("OpenAI API returned " ++ toString f.status ++ ": ").data, [],
        by simp [String.data_append]⟩
    · rw [hcond] at hl; cases hl
    · rw [hcond] at hl; cases hl
  · intro m row hcond hmem
    rcases sendMessage_cases method body userId o with
      ⟨_, heq⟩ | ⟨_, _, heq⟩ | ⟨_, _, _, _, heq⟩ | ⟨_, _, _, _,
        ⟨m', hs, heq⟩ | ⟨s, hs,
          ⟨f, hl, heq⟩ | ⟨hl, heq⟩ | ⟨r, hl,
            ⟨m', hui, heq⟩ | ⟨hui, _⟩⟩⟩⟩
    · rw [heq] at hmem; simp at hmem
    · rw [heq] at hmem; simp at hmem
    · rw [heq] at hmem; simp at hmem
    · rw [heq] at hmem; simp at hmem
    · rw [heq] at hmem; simp at hmem
    · rw [heq] at hmem; simp at hmem
    · rw [hcond] at hui
      injection hui with hui'
      subst hui'
      rw [heq]
      exact ⟨rfl, List.infix_refl _⟩
    · rw [hcond] at hui; cases hui
  · intro m row hucond hcond hmem
    rcases sendMessage_cases method body userId o with
      ⟨_, heq⟩ | ⟨_, _, heq⟩ | ⟨_, _, _, _, heq⟩ | ⟨_, _, _, _,
        ⟨m', hs, heq⟩ | ⟨s, hs,
          ⟨f, hl, heq⟩ | ⟨hl, heq⟩ | ⟨r, hl,
            ⟨m', hui, heq⟩ | ⟨hui, ⟨m', hai, heq⟩ | ⟨hai, heq⟩⟩⟩⟩⟩
    · rw [heq] at hmem; simp at hmem
    · rw [heq] at hmem; simp at hmem
    · rw [heq] at hmem; simp at hmem
    · rw [heq] at hmem; simp at hmem
    · rw [heq] at hmem; simp at hmem
    · rw [heq] at hmem; simp at hmem
    · rw [hucond] at hui; cases hui
    · rw [hcond] at hai
      injection hai with hai'
      subst hai'
      rw [heq]
      exact ⟨rfl, List.infix_refl _⟩
    · rw [hcond] at hai; cases hai
  · intro e he
    have h1 : dailyLimitHit o.countRes.toOption = false := by
      simp [he, Except.toOption, dailyLimitHit]
    have h2 : o.countRes.toOption.getD 0 = 0 := by
      simp [he, Except.toOption]
    simp only [handleSendMessage, h1, h2]
    simp [dailyLimitHit, Except.toOption]
  · intro e he
    simp [handleSendMessage, he]
  · intro e he
    rfl

set_option maxRecDepth 8192 in
theorem reflectPrompt_not_empty : reflectPrompt.isEmpty = false := by rfl

set_option maxRecDepth 8192 in
theorem recoverPrompt_not_empty : recoverPrompt.isEmpty = false := by rfl

set_option maxRecDepth 8192 in
theorem rebuildPrompt_not_empty : rebuildPrompt.isEmpty = false := by rfl

set_option maxRecDepth 8192 in
theorem evolvePrompt_not_empty : evolvePrompt.isEmpty = false := by rfl

/-- C7 counterexample: for `mode = "toString"` the JS lookup `prompts[mode]`
resolves the inherited — and truthy — `Object.prototype.toString` member, so
`|| prompts.evolve` never fires and the evolve prompt is not used, refuting
the claim's "for any other mode value the evolve prompt is used". -/
theorem getSystemPrompt_prototype_counterexample :
    getSystemPromptJs "toString" = .protoMember "toString" ∧
    getSystemPromptJs "toString" ≠ .str evolvePrompt ∧
    "toString" ∉ (["reflect", "recover", "rebuild", "evolve"] : List String) :=
  ⟨by decide, by decide, by decide⟩

/-- C7 amended: for each of the four mode names the lookup yields that mode's
fixed preset prompt string; for any other mode value (including, through the
`mode || 'evolve'` default, a missing mode) that does not name an inherited
`Object.prototype` member, the evolve prompt is used, and the looked-up
string is exactly the system message heading the chat-completion request;
but for a mode naming an inherited `Object.prototype` member the truthy
inherited member short-circuits the fallback and the evolve prompt is not
used. -/
theorem getSystemPrompt_mode_spec (method : String) (body : SendBody)
    (userId : String) (o : SendOracle) :
    getSystemPromptJs "reflect" = .str reflectPrompt ∧
    getSystemPromptJs "recover" = .str recoverPrompt ∧
    getSystemPromptJs "rebuild" = .str rebuildPrompt ∧
    getSystemPromptJs "evolve" = .str evolvePrompt ∧
    (∀ m, m ∉ (["reflect", "recover", "rebuild", "evolve"] : List String) →
      m ∉ objectPrototypeKeys → getSystemPromptJs m = .str evolvePrompt) ∧
    (∀ m, m ∈ objectPrototypeKeys →
      getSystemPromptJs m = .protoMember m ∧
      getSystemPromptJs m ≠ .str evolvePrompt) ∧
    jsOrStr none "evolve" = "evolve" ∧
    (∀ m, m ∉ objectPrototypeKeys →
      getSystemPromptJs m = .str (getSystemPrompt m)) ∧
    (∀ msgs, jsOrStr body.mode "evolve" ∉ objectPrototypeKeys →
      Event.llmCall msgs ∈ (handleSendMessage method body userId o).1 →
      msgs.head? = some (ChatMsg.mk "system"
        (getSystemPrompt (jsOrStr body.mode "evolve")))) := by
  refine ⟨?_, ?_, ?_, ?_, ?_, ?_, rfl, ?_, ?_⟩
  · simp [getSystemPromptJs, promptsLookup, JsPropValue.isTruthy,
      reflectPrompt_not_empty]
  · simp [getSystemPromptJs, promptsLookup, JsPropValue.isTruthy,
      recoverPrompt_not_empty]
  · simp [getSystemPromptJs, promptsLookup, JsPropValue.isTruthy,
      rebuildPrompt_not_empty]
  · simp [getSystemPromptJs, promptsLookup, JsPropValue.isTruthy,
      evolvePrompt_not_empty]
  · intro m hm hp
    simp only [List.mem_cons, List.not_mem_nil, or_false, not_or] at hm
    obtain ⟨h1, h2, h3, h4⟩ := hm
    simp [getSystemPromptJs, promptsLookup, JsPropValue.isTruthy,
      h1, h2, h3, h4, hp]
  · intro m hm
    simp only [objectPrototypeKeys, List.mem_cons, List.not_mem_nil,
      or_false] at hm
    rcases hm with rfl | rfl | rfl | rfl | rfl | rfl | rfl | rfl | rfl |
      rfl | rfl | rfl
    all_goals exact ⟨by decide, by decide⟩
  · intro m hp
    by_cases h1 : m = "reflect"
    · subst h1
      simp [getSystemPromptJs, promptsLookup, JsPropValue.isTruthy,
        reflectPrompt_not_empty, getSystemPrompt]
    · by_cases h2 : m = "recover"
      · subst h2
        simp [getSystemPromptJs, promptsLookup, JsPropValue.isTruthy,
          recoverPrompt_not_empty, getSystemPrompt]
      · by_cases h3 : m = "rebuild"
        · subst h3
          simp [getSystemPromptJs, promptsLookup, JsPropValue.isTruthy,
            rebuildPrompt_not_empty, getSystemPrompt]
        · by_cases h4 : m = "evolve"
          · subst h4
            simp [getSystemPromptJs, promptsLookup, JsPropValue.isTruthy,
              evolvePrompt_not_empty, getSystemPrompt]
          · simp [getSystemPromptJs, promptsLookup, JsPropValue.isTruthy,
              getSystemPrompt, h1, h2, h3, h4, hp]
  · intro msgs hguard hmem
    rcases sendMessage_cases method body userId o with
      ⟨_, heq⟩ | ⟨_, _, heq⟩ | ⟨_, _, _, _, heq⟩ | ⟨_, _, _, _,
        ⟨m, hs, heq⟩ | ⟨s, hs,
          ⟨f, hl, heq⟩ | ⟨hl, heq⟩ | ⟨r, hl,
            ⟨m, hui, heq⟩ | ⟨hui, ⟨m, hai, heq⟩ | ⟨hai, heq⟩⟩⟩⟩⟩ <;>
      rw [heq] at hmem <;> simp at hmem <;>
      simp [hmem, openAIMessagesOf]

theorem message_ownership_invariant_witness :
    (handleSendMessage "POST" bodyC "u1" oSendNoSession).2.status = 404 ∧
    (handleSendMessage "POST" bodyC "u1" oSendNoSession).1.filter
      Event.isWrite = [] :=
  (message_ownership_invariant "POST" bodyC "u1" oSendNoSession (some "s1")
    (.error "no rows returned") (.ok (some []))).2.1 "no rows returned" rfl
    (by decide)

/-- A concrete oracle whose user-message insert fails. -/
def oSendUserInsErr : SendOracle :=
  ⟨.ok 0, .ok sessC, .ok [], .ok (some "r"), some "insert failed", none, none⟩

theorem sendMessage_error_surfacing_witness :
    (handleSendMessage "POST" bodyC "u1" oSendUserInsErr).2.status = 500 ∧
    (handleSendMessage "POST" bodyC "u1" oSendUserInsErr).2.body.surfacesDetail
      "insert failed" :=
  (sendMessage_error_surfacing "POST" bodyC "u1" oSendUserInsErr).2.2.1
    "insert failed" ⟨"s1", "u1", "hi", "user", "reflect"⟩ rfl (by decide)

theorem getSystemPrompt_mode_spec_witness :
    getSystemPromptJs "banana" = .str evolvePrompt ∧
    getSystemPromptJs "toString" ≠ .str evolvePrompt :=
  ⟨(getSystemPrompt_mode_spec "POST" bodyC "u1" oSendOk).2.2.2.2.1 "banana"
      (by decide) (by decide),
   ((getSystemPrompt_mode_spec "POST" bodyC "u1" oSendOk).2.2.2.2.2.1
      "toString" (by decide)).2⟩

end TherapyApi
